import Mathlib

/-!
Shallow embedding of `bot_webhook.py` (libidit/telegram-bot-render):
a Telegram webhook bot walking an operator through a Start/Stop report
form and appending each finished report as a row to a spreadsheet log.

The embedding covers the parts the claims are about:
  * the pure validators (`parse_date_input`, `validate_time_input`,
    `validate_znp`, `validate_meters`, the inline line-number check);
  * the conversation store `user_states` (a map from operator id to an
    optional conversation state);
  * `process_update`, the flow engine: one inbound message against the
    current store, yielding the new store, the outbound sends and the
    rows appended to the log;
  * `is_duplicate_update` and the webhook dispatch (de-duplication on
    `update_id` before the flow engine runs).

Modelling conventions, all visible in the definitions below:
  * Python strings are Lean `String`s; `str.strip()` is `pyStrip`;
    Python's `str.isdigit`/`int` are modelled over ASCII digits.
  * Network sends are recorded as a list of `Send` values; reply
    keyboards are abstracted to a `Markup` tag (their button rows are
    display data only and, for the date/time menus, depend on the wall
    clock, which no claim touches).
  * The sheet append is modelled by an `sinkOk` flag in the
    environment: the Python function catches every exception from the
    sheets client, logs it, and returns normally, so on failure nothing
    is appended and no error reaches the caller.
  * `datetime.now().strftime(...)` at finalize time is the environment
    field `ts`; `load_reasons()` is the environment field `reasons`.
-/

namespace BotWebhook

/-- Python `s.strip()` on the character list: drop leading and trailing
whitespace. -/
def stripChars (l : List Char) : List Char :=
  ((l.dropWhile Char.isWhitespace).reverse.dropWhile Char.isWhitespace).reverse

/-- Python `s.strip()` (ASCII whitespace). -/
def pyStrip (s : String) : String := String.mk (stripChars s.data)

/-- Python `s.isdigit()` restricted to ASCII digits: nonempty and all
characters in `0`..`9`. -/
def str_isdigit (s : String) : Bool :=
  s.length != 0 && s.data.all Char.isDigit

/-- Value of an ASCII digit character. -/
def digitVal (c : Char) : Nat := c.toNat - 48

/-- Numeric value of an ASCII digit string. -/
def digitsToNat (l : List Char) : Nat := l.foldl (fun a c => a * 10 + digitVal c) 0

/-- Python `int(s)` after an `isdigit` check: an unsigned ASCII digit
parse (the code only reads the value after `isdigit` succeeded). -/
def strToNat (s : String) : Nat := digitsToNat s.data

/-- Python `int(s)` on one dot-separated date component: succeeds on a
nonempty ASCII digit string. -/
def charsToNat? (l : List Char) : Option Nat :=
  if l ≠ [] ∧ l.all Char.isDigit then some (digitsToNat l) else none

/-- Day count of month `m` in year `y`, as Python `datetime` validates it. -/
def days_in_month (y m : Nat) : Nat :=
  if m = 2 then (if (y % 4 = 0 && y % 100 != 0) || y % 400 = 0 then 29 else 28)
  else if m = 4 || m = 6 || m = 9 || m = 11 then 30 else 31

/-- Zero-pad to two digits (`f"{n:02d}"` for `n < 100`). -/
def pad2 (n : Nat) : String := if n < 10 then "0" ++ toString n else toString n

/-- Zero-pad to four digits (`f"{n:04d}"` for `n < 10000`). -/
def pad4 (n : Nat) : String :=
  if n < 10 then "000" ++ toString n
  else if n < 100 then "00" ++ toString n
  else if n < 1000 then "0" ++ toString n
  else toString n

/-- `parse_date_input`: split on `.` into exactly day, month, year,
parse each as an integer, and require `datetime(year, month, day)` to
be constructible (year in 1..9999, calendar-valid month and day).
Returns the ISO form for internal use plus the display form, which is
the input itself. -/
def parse_date_input (s : String) : Option (String × String) :=
  match (s.data.splitOn '.').map charsToNat? with
  | [some d, some m, some y] =>
    if 1 ≤ y && y ≤ 9999 && 1 ≤ m && m ≤ 12 && 1 ≤ d && d ≤ days_in_month y m then
      some (pad4 y ++ "-" ++ pad2 m ++ "-" ++ pad2 d, s)
    else none
  | _ => none

/-- `validate_time_input`: regex `^\d{2}:\d{2}$`, then `hh < 24` and
`mm < 60`. -/
def validate_time_input (s : String) : Bool :=
  match s.data with
  | [h1, h2, c, m1, m2] =>
    h1.isDigit && h2.isDigit && c = ':' && m1.isDigit && m2.isDigit &&
    digitVal h1 * 10 + digitVal h2 < 24 && digitVal m1 * 10 + digitVal m2 < 60
  | _ => false

/-- `validate_znp`: exactly 4 ASCII digits. -/
def validate_znp (s : String) : Bool :=
  str_isdigit s && s.length = 4

/-- `validate_meters`: a non-negative integer string. -/
def validate_meters (s : String) : Bool :=
  str_isdigit s

/-- The inline line-number check at step `line`:
`text.isdigit() and 1 <= int(text) <= 15`. -/
def accepts_line (s : String) : Bool :=
  str_isdigit s && 1 ≤ strToNat s && strToNat s ≤ 15

/-- Reply-keyboard tag: which keyboard builder the send used. The
concrete button rows (including the clock-dependent date/time quick
picks) are display data abstracted away. -/
inductive Markup where
  | mainMenu
  | cancelKb
  | dateMenu
  | timeMenu
  | actionMenu
  | reasonsMenu (rs : List String)
deriving DecidableEq, Repr

/-- One outbound `send_message` call: chat, text, reply keyboard. -/
structure Send where
  chat_id : Int
  text : String
  markup : Markup
deriving DecidableEq, Repr

/-- One inbound Telegram message, as `process_update` reads it from the
update: text body, chat id, sender id and username (`""` when absent). -/
structure MsgIn where
  text : String
  chat_id : Int
  uid : Nat
  username : String
deriving DecidableEq, Repr

/-- `f"{uid} (@{username or 'без_username'})"`. -/
def user_repr (uid : Nat) (username : String) : String :=
  toString uid ++ " (@" ++ (if username = "" then "без_username" else username) ++ ")"

/-- The `data` dict of a conversation state: the sender info and chat
stored at flow start, plus the fields accumulated step by step. -/
structure FlowData where
  user_uid : Nat
  user_username : String
  chat_id : Int
  line : Option String
  date_iso : Option String
  date_display : Option String
  time : Option String
  action : Option String
  reason : Option String
  znp : Option String
  meters : Option String
deriving DecidableEq, Repr

/-- One entry of `user_states`: flow kind, current step name, data. -/
structure ConvState where
  flow : String
  step : String
  data : FlowData
deriving DecidableEq, Repr

/-- The `user_states` table, keyed by operator id. -/
abbrev UserStates := Nat → Option ConvState

/-- Point update of the state table. -/
def setState (m : UserStates) (uid : Nat) (v : Option ConvState) : UserStates :=
  fun u => if u = uid then v else m u

/-- `start_startstop_flow`: fresh StartStop state at step `line` with
only the sender info and chat stored. -/
def start_startstop_flow (uid : Nat) (username : String) (chat_id : Int) : ConvState :=
  ⟨"startstop", "line", ⟨uid, username, chat_id, none, none, none, none, none, none, none, none⟩⟩

/-- The `data_dict` handed to the sheet append at finalize time. -/
structure DataDict where
  date_display : String
  time : String
  line : String
  action : String
  reason : String
  znp : String
  meters : String
  user_repr : String
  timestamp : String
  status : String
deriving DecidableEq, Repr

/-- Display mapping of the internal action value in the sheet row. -/
def display_action (a : String) : String :=
  if a = "запуск" then "Запуск" else if a = "остановка" then "Остановка" else a

/-- The row built by `append_to_startstop_sheet_by_headers`, in the
order of `HEADERS_STARTSTOP`. -/
def startstop_row (d : DataDict) : List String :=
  [d.date_display, d.time, d.line, display_action d.action, d.reason,
   d.znp, d.meters, d.user_repr, d.timestamp, d.status]

/-- `append_to_startstop_sheet_by_headers`: appends one row on success.
The Python body wraps everything in `try/except` and only logs on
failure, so a failed append adds nothing and raises nothing. -/
def append_to_startstop_sheet_by_headers (sinkOk : Bool) (d : DataDict) : List (List String) :=
  if sinkOk then [startstop_row d] else []

/-- The `Записано!` confirmation message built at finalize time. -/
def confirmation_msg (d : DataDict) : String :=
  "<b>Записано!</b>\n" ++
  "<b>Дата:</b> " ++ d.date_display ++ "\n" ++
  "<b>Время:</b> " ++ d.time ++ "\n" ++
  "<b>Линия:</b> " ++ d.line ++ "\n" ++
  "<b>Действие:</b> " ++ (if d.action = "запуск" then "Запуск" else "Остановка") ++ "\n" ++
  "<b>Причина:</b> " ++ (if d.reason = "" then "—" else d.reason) ++ "\n" ++
  "<b>ЗНП:</b> " ++ d.znp ++ "\n" ++
  "<b>Метров брака:</b> " ++ d.meters ++ "\n" ++
  "<b>Пользователь:</b> " ++ d.user_repr

/-- Ambient inputs of one `process_update` run: the reason list
`load_reasons()` returns, the `datetime.now()` submission timestamp
string, and whether the sheet append succeeds. -/
structure Env where
  reasons : List String
  ts : String
  sinkOk : Bool
deriving DecidableEq, Repr

/-- `process_update`: one inbound message (or `none` when the update
carries no message) against the state table. Returns the new table,
the outbound sends in order, and the rows appended to the log. -/
def process_update (env : Env) (msg? : Option MsgIn) (states : UserStates) :
    UserStates × List Send × List (List String) :=
  match msg? with
  | none => (states, [], [])
  | some m =>
    let text := pyStrip m.text
    let chat_id := m.chat_id
    let uid := m.uid
    let u_repr := user_repr uid m.username
    match states uid with
    | none =>
      if text = "Старт/Стоп" then
        (setState states uid (some (start_startstop_flow uid m.username chat_id)),
         [⟨chat_id, "Номер линии (1-15):", .cancelKb⟩], [])
      else if text = "Брак" then
        (states, [⟨chat_id, "Раздел «Брак» пока не реализован.", .mainMenu⟩], [])
      else if text = "Отменить последнюю запись" then
        (states, [⟨chat_id, "Функция отмены пока не реализована.", .mainMenu⟩], [])
      else
        (states, [⟨chat_id, "Выберите действие:", .mainMenu⟩], [])
    | some state =>
      if state.flow ≠ "startstop" then
        (setState states uid none,
         [⟨chat_id, "Произошла ошибка состояния. Начните заново.", .mainMenu⟩], [])
      else if text = "Отмена" then
        (setState states uid none, [⟨chat_id, "Отменено.", .mainMenu⟩], [])
      else if state.step = "line" then
        if !accepts_line text then
          (states, [⟨chat_id, "Введите номер линии от 1 до 15 (целое число):", .cancelKb⟩], [])
        else
          (setState states uid (some ⟨state.flow, "date", { state.data with line := some text }⟩),
           [⟨chat_id, "Дата (дд.мм.гггг):", .dateMenu⟩], [])
      else if state.step = "date" then
        if text = "Другая дата" then
          (setState states uid (some ⟨state.flow, "date_custom", state.data⟩),
           [⟨chat_id, "Введите дату в формате дд.мм.гггг:", .cancelKb⟩], [])
        else
          match parse_date_input text with
          | none =>
            (states,
             [⟨chat_id, "Неверный формат даты. Введите в формате дд.мм.гггг или выберите кнопку:",
               .dateMenu⟩], [])
          | some (iso, disp) =>
            (setState states uid (some ⟨state.flow, "time",
               { state.data with date_iso := some iso, date_display := some disp }⟩),
             [⟨chat_id, "Время (чч:мм):", .timeMenu⟩], [])
      else if state.step = "date_custom" then
        match parse_date_input text with
        | none =>
          (states, [⟨chat_id, "Неверный формат. Введите дату в формате дд.мм.гггг:", .cancelKb⟩], [])
        | some (iso, disp) =>
          (setState states uid (some ⟨state.flow, "time",
             { state.data with date_iso := some iso, date_display := some disp }⟩),
           [⟨chat_id, "Время (чч:мм):", .timeMenu⟩], [])
      else if state.step = "time" then
        if text = "Другое время" then
          (setState states uid (some ⟨state.flow, "time_custom", state.data⟩),
           [⟨chat_id, "Введите время в формате чч:мм:", .cancelKb⟩], [])
        else if !validate_time_input text then
          (states,
           [⟨chat_id, "Неверный формат времени. Введите чч:мм или выберите кнопку:", .timeMenu⟩], [])
        else
          (setState states uid (some ⟨state.flow, "action", { state.data with time := some text }⟩),
           [⟨chat_id, "Действие:", .actionMenu⟩], [])
      else if state.step = "time_custom" then
        if !validate_time_input text then
          (states, [⟨chat_id, "Неверный формат времени. Введите чч:мм:", .cancelKb⟩], [])
        else
          (setState states uid (some ⟨state.flow, "action", { state.data with time := some text }⟩),
           [⟨chat_id, "Действие:", .actionMenu⟩], [])
      else if state.step = "action" then
        if text ≠ "Запуск" ∧ text ≠ "Остановка" then
          (states, [⟨chat_id, "Выберите действие: Запуск или Остановка", .actionMenu⟩], [])
        else
          let action := if text = "Запуск" then "запуск" else "остановка"
          if action = "запуск" then
            (setState states uid (some ⟨state.flow, "znp", { state.data with action := some action }⟩),
             [⟨chat_id, "Номер ЗНП (4 цифры):", .cancelKb⟩], [])
          else
            (setState states uid (some ⟨state.flow, "reason", { state.data with action := some action }⟩),
             [⟨chat_id, "Причина остановки:", .reasonsMenu env.reasons⟩], [])
      else if state.step = "reason" then
        if text = "Другое" then
          (setState states uid (some ⟨state.flow, "reason_custom", state.data⟩),
           [⟨chat_id, "Введите причину остановки (текст):", .cancelKb⟩], [])
        else
          (setState states uid (some ⟨state.flow, "znp", { state.data with reason := some text }⟩),
           [⟨chat_id, "Номер ЗНП (4 цифры):", .cancelKb⟩], [])
      else if state.step = "reason_custom" then
        (setState states uid (some ⟨state.flow, "znp", { state.data with reason := some text }⟩),
         [⟨chat_id, "Номер ЗНП (4 цифры):", .cancelKb⟩], [])
      else if state.step = "znp" then
        if !validate_znp text then
          (states, [⟨chat_id, "Неверный формат ЗНП. Введите ровно 4 цифры:", .cancelKb⟩], [])
        else
          (setState states uid (some ⟨state.flow, "meters", { state.data with znp := some text }⟩),
           [⟨chat_id, "Количество метров брака (целое число):", .cancelKb⟩], [])
      else if state.step = "meters" then
        if !validate_meters text then
          (states, [⟨chat_id, "Введите количество метров брака числом (целое):", .cancelKb⟩], [])
        else
          let d := { state.data with meters := some text }
          let dict : DataDict :=
            ⟨d.date_display.getD "", d.time.getD "", d.line.getD "", d.action.getD "",
             d.reason.getD "", d.znp.getD "", d.meters.getD "", u_repr, env.ts, ""⟩
          (setState states uid none,
           [⟨chat_id, confirmation_msg dict, .mainMenu⟩],
           append_to_startstop_sheet_by_headers env.sinkOk dict)
      else
        (setState states uid none,
         [⟨chat_id, "Произошла ошибка. Начните заново.", .mainMenu⟩], [])

/-- A sequence of inbound messages from one operator (same chat, id and
username), processed in order; sends and appended rows accumulate. -/
def run_inputs (env : Env) (chat : Int) (uid : Nat) (un : String) (states : UserStates) :
    List String → UserStates × List Send × List (List String)
  | [] => (states, [], [])
  | t :: ts =>
    let r := process_update env (some ⟨t, chat, uid, un⟩) states
    let rest := run_inputs env chat uid un r.1 ts
    (rest.1, r.2.1 ++ rest.2.1, r.2.2 ++ rest.2.2)

/-- Does step `s` reject input `t`?  One case per `if not valid:
re-prompt; return` branch of `process_update`; steps without a
rejection branch (`reason`, `reason_custom`) and unknown step names
reject nothing. -/
def rejectedAt (s t : String) : Prop :=
  if s = "line" then accepts_line t = false
  else if s = "date" then t ≠ "Другая дата" ∧ parse_date_input t = none
  else if s = "date_custom" then parse_date_input t = none
  else if s = "time" then t ≠ "Другое время" ∧ validate_time_input t = false
  else if s = "time_custom" then validate_time_input t = false
  else if s = "action" then t ≠ "Запуск" ∧ t ≠ "Остановка"
  else if s = "znp" then validate_znp t = false
  else if s = "meters" then validate_meters t = false
  else False

/-- The single re-prompt `send_message` issued when step `s` rejects
its input. -/
def reprompt_send (s : String) (chat : Int) : Send :=
  if s = "line" then ⟨chat, "Введите номер линии от 1 до 15 (целое число):", .cancelKb⟩
  else if s = "date" then
    ⟨chat, "Неверный формат даты. Введите в формате дд.мм.гггг или выберите кнопку:", .dateMenu⟩
  else if s = "date_custom" then ⟨chat, "Неверный формат. Введите дату в формате дд.мм.гггг:", .cancelKb⟩
  else if s = "time" then
    ⟨chat, "Неверный формат времени. Введите чч:мм или выберите кнопку:", .timeMenu⟩
  else if s = "time_custom" then ⟨chat, "Неверный формат времени. Введите чч:мм:", .cancelKb⟩
  else if s = "action" then ⟨chat, "Выберите действие: Запуск или Остановка", .actionMenu⟩
  else if s = "znp" then ⟨chat, "Неверный формат ЗНП. Введите ровно 4 цифры:", .cancelKb⟩
  else ⟨chat, "Введите количество метров брака числом (целое):", .cancelKb⟩

/-! ### De-duplication and webhook dispatch -/

/-- `processed_update_ids` (a deque with `maxlen=2000`) together with
`processed_update_ids_set`; the set is modelled as a membership list. -/
structure DedupState where
  dq : List Nat
  ids : List Nat
deriving DecidableEq, Repr

/-- `maxlen` of the recent-id deque. -/
def dedup_maxlen : Nat := 2000

/-- `is_duplicate_update`: already-seen ids answer `True` with nothing
changed; new ids are recorded (the deque evicts its oldest entry when
full, and the set is rebuilt from the deque when the deque is at
capacity). -/
def is_duplicate_update (id : Nat) (s : DedupState) : Bool × DedupState :=
  if id ∈ s.ids then (true, s)
  else
    let dq := if s.dq.length < dedup_maxlen then s.dq ++ [id] else s.dq.tail ++ [id]
    let ids := id :: s.ids
    let ids := if dq.length = dedup_maxlen then dq else ids
    (false, ⟨dq, ids⟩)

/-- One inbound update as the webhook reads it: optional `update_id`
and optional message payload. -/
structure Update where
  update_id : Option Nat
  message : Option MsgIn
deriving DecidableEq, Repr

/-- The webhook handler after token and content-type checks: de-dupe on
`update_id` when present, then hand the update to `process_update`.
The returned flag records whether the flow engine ran. -/
def webhook_step (env : Env) (upd : Update) (states : UserStates) (d : DedupState) :
    Bool × UserStates × DedupState × List Send × List (List String) :=
  match upd.update_id with
  | some id =>
    let r := is_duplicate_update id d
    if r.1 then (false, states, r.2, [], [])
    else
      let p := process_update env upd.message states
      (true, p.1, r.2, p.2.1, p.2.2)
  | none =>
    let p := process_update env upd.message states
    (true, p.1, d, p.2.1, p.2.2)

/-! ### The reference-code rule as the specification states it -/

/-- The reference-code acceptance rule in the words of the
specification (claim C3), for comparison with the source's
`validate_znp`: 10 characters, a type letter `D` or `L`, a 4-digit
period stamp, a hyphen, a 4-digit sequence, and the 5-character head
equal to one of the 4 currently-valid values (passed in as `valid5`,
computed from the wall clock). -/
def spec_znp_accept (valid5 : List String) (t : String) : Bool :=
  t.length = 10 &&
  (t.data.headD ' ' = 'D' || t.data.headD ' ' = 'L') &&
  ((t.data.drop 1).take 4).all Char.isDigit &&
  (t.data.drop 5).headD ' ' = '-' &&
  ((t.data.drop 6).take 4).all Char.isDigit &&
  valid5.contains (String.mk (t.data.take 5))

/-! ### Idle reaper, modelled from the spec

`src/bot_webhook.py` stores no `lastActivityTime` on a conversation
and starts no background sweep; the spec attributes both (600 s
timeout, 30 s sweep interval) to repository source outside `src/`.
The definitions below model that missing part from the spec's words
and are bridged to the embedded flow engine by `timed_to_states`. -/

/-- Modelled from the spec: one Conversation-Store entry carrying the
`lastActivityTime` timestamp (seconds) next to the conversation. -/
structure TimedEntry where
  uid : Nat
  conv : ConvState
  lastActivityTime : Nat
deriving DecidableEq, Repr

/-- Modelled from the spec: the Conversation Store of the reaper,
one entry per operator. -/
abbrev TimedStore := List TimedEntry

/-- The idle timeout (600 s in source per the spec). -/
def idle_timeout : Nat := 600

/-- Store lookup by operator id. -/
def lookup_timed (store : TimedStore) (uid : Nat) : Option TimedEntry :=
  store.find? (fun e => e.uid = uid)

/-- The flow engine's view of the timed store. -/
def timed_to_states (store : TimedStore) : UserStates :=
  fun u => (lookup_timed store u).map TimedEntry.conv

/-- Modelled from the spec: `lastActivityTime` is refreshed on every
accepted or rejected input from the operator. -/
def touch_activity (now : Nat) (uid : Nat) (store : TimedStore) : TimedStore :=
  store.map (fun e => if e.uid = uid then ⟨e.uid, e.conv, now⟩ else e)

/-- Is the entry idle beyond the timeout at time `now`? -/
def entry_expired (now : Nat) (e : TimedEntry) : Bool :=
  now > e.lastActivityTime + idle_timeout

/-- Modelled from the spec: the entries one reaper sweep at time `now`
removes. -/
def reap_removed (now : Nat) (store : TimedStore) : TimedStore :=
  store.filter (entry_expired now)

/-- Modelled from the spec: the store left after one reaper sweep. -/
def reap_kept (now : Nat) (store : TimedStore) : TimedStore :=
  store.filter (fun e => !entry_expired now e)

/-- Modelled from the spec: the idle-cancellation notice text. -/
def idle_notice_text : String := "Сессия закрыта по неактивности."

/-- Modelled from the spec: one idle-cancellation notice per removed
conversation, routed to that conversation's chat. -/
def reap_notices (now : Nat) (store : TimedStore) : List Send :=
  (reap_removed now store).map (fun e => ⟨e.conv.data.chat_id, idle_notice_text, .mainMenu⟩)

/-! ### Concrete sample data for instantiations -/

/-- A sample environment: two listed stop reasons, a fixed submission
timestamp, working sink. -/
def sampleEnv : Env := ⟨["Поломка", "Другое"], "2024-02-01 08:30:00", true⟩

/-- A state table holding operator 7 at step `s` with data `d`. -/
def sampleStates (s : String) (d : FlowData) : UserStates :=
  fun u => if u = 7 then some ⟨"startstop", s, d⟩ else none

/-- Accumulated data of a Stop report right before the reason step. -/
def sampleReasonData : FlowData :=
  ⟨7, "op", 55, some "3", some "2024-02-01", some "01.02.2024", some "08:00",
   some "остановка", none, none, none⟩

/-- Accumulated data of a Stop report at the reference-code step. -/
def sampleZnpData : FlowData :=
  ⟨7, "op", 55, some "3", some "2024-02-01", some "01.02.2024", some "08:00",
   some "остановка", some "Поломка", none, none⟩

/-- Accumulated data of a Stop report at the scrap-length step. -/
def sampleMetersData : FlowData :=
  ⟨7, "op", 55, some "3", some "2024-02-01", some "01.02.2024", some "08:00",
   some "остановка", some "Поломка", some "1234", none⟩

/-! ## Step-equation lemmas for `process_update`

One lemma per branch of the flow engine, shared by the claim
theorems below. -/

theorem pu_nostate_start (env : Env) (chat : Int) (uid : Nat) (un t : String) (states : UserStates)
    (hs : states uid = none) (ht : pyStrip t = "Старт/Стоп") :
    process_update env (some ⟨t, chat, uid, un⟩) states =
      (setState states uid (some (start_startstop_flow uid un chat)),
       [⟨chat, "Номер линии (1-15):", .cancelKb⟩], []) := by
  simp only [process_update, hs, ht]; simp

theorem pu_nostate_brak (env : Env) (chat : Int) (uid : Nat) (un t : String) (states : UserStates)
    (hs : states uid = none) (ht : pyStrip t = "Брак") :
    process_update env (some ⟨t, chat, uid, un⟩) states =
      (states, [⟨chat, "Раздел «Брак» пока не реализован.", .mainMenu⟩], []) := by
  simp only [process_update, hs, ht]; simp +decide

theorem pu_nostate_cancel_last (env : Env) (chat : Int) (uid : Nat) (un t : String)
    (states : UserStates) (hs : states uid = none)
    (ht : pyStrip t = "Отменить последнюю запись") :
    process_update env (some ⟨t, chat, uid, un⟩) states =
      (states, [⟨chat, "Функция отмены пока не реализована.", .mainMenu⟩], []) := by
  simp only [process_update, hs, ht]; simp +decide

theorem pu_nostate_other (env : Env) (chat : Int) (uid : Nat) (un t : String) (states : UserStates)
    (hs : states uid = none) (h1 : pyStrip t ≠ "Старт/Стоп") (h2 : pyStrip t ≠ "Брак")
    (h3 : pyStrip t ≠ "Отменить последнюю запись") :
    process_update env (some ⟨t, chat, uid, un⟩) states =
      (states, [⟨chat, "Выберите действие:", .mainMenu⟩], []) := by
  simp only [process_update, hs]; simp [h1, h2, h3]

theorem pu_cancel (env : Env) (chat : Int) (uid : Nat) (un t s : String) (d : FlowData)
    (states : UserStates) (hs : states uid = some ⟨"startstop", s, d⟩) (ht : pyStrip t = "Отмена") :
    process_update env (some ⟨t, chat, uid, un⟩) states =
      (setState states uid none, [⟨chat, "Отменено.", .mainMenu⟩], []) := by
  simp only [process_update, hs, ht]; simp +decide

theorem pu_line_accept (env : Env) (chat : Int) (uid : Nat) (un t : String) (d : FlowData)
    (states : UserStates) (hs : states uid = some ⟨"startstop", "line", d⟩)
    (ht : accepts_line (pyStrip t) = true) (hc : pyStrip t ≠ "Отмена") :
    process_update env (some ⟨t, chat, uid, un⟩) states =
      (setState states uid (some ⟨"startstop", "date", { d with line := some (pyStrip t) }⟩),
       [⟨chat, "Дата (дд.мм.гггг):", .dateMenu⟩], []) := by
  simp only [process_update, hs]; simp +decide [hc, ht]

theorem pu_date_sentinel (env : Env) (chat : Int) (uid : Nat) (un t : String) (d : FlowData)
    (states : UserStates) (hs : states uid = some ⟨"startstop", "date", d⟩)
    (ht : pyStrip t = "Другая дата") :
    process_update env (some ⟨t, chat, uid, un⟩) states =
      (setState states uid (some ⟨"startstop", "date_custom", d⟩),
       [⟨chat, "Введите дату в формате дд.мм.гггг:", .cancelKb⟩], []) := by
  simp only [process_update, hs, ht]; simp +decide

theorem pu_date_accept (env : Env) (chat : Int) (uid : Nat) (un t iso disp : String) (d : FlowData)
    (states : UserStates) (hs : states uid = some ⟨"startstop", "date", d⟩)
    (hc : pyStrip t ≠ "Отмена") (h2 : pyStrip t ≠ "Другая дата")
    (hp : parse_date_input (pyStrip t) = some (iso, disp)) :
    process_update env (some ⟨t, chat, uid, un⟩) states =
      (setState states uid (some ⟨"startstop", "time",
         { d with date_iso := some iso, date_display := some disp }⟩),
       [⟨chat, "Время (чч:мм):", .timeMenu⟩], []) := by
  simp only [process_update, hs]; simp +decide [hc, h2, hp]

theorem pu_date_custom_accept (env : Env) (chat : Int) (uid : Nat) (un t iso disp : String)
    (d : FlowData) (states : UserStates) (hs : states uid = some ⟨"startstop", "date_custom", d⟩)
    (hc : pyStrip t ≠ "Отмена") (hp : parse_date_input (pyStrip t) = some (iso, disp)) :
    process_update env (some ⟨t, chat, uid, un⟩) states =
      (setState states uid (some ⟨"startstop", "time",
         { d with date_iso := some iso, date_display := some disp }⟩),
       [⟨chat, "Время (чч:мм):", .timeMenu⟩], []) := by
  simp only [process_update, hs]; simp +decide [hc, hp]

theorem pu_time_sentinel (env : Env) (chat : Int) (uid : Nat) (un t : String) (d : FlowData)
    (states : UserStates) (hs : states uid = some ⟨"startstop", "time", d⟩)
    (ht : pyStrip t = "Другое время") :
    process_update env (some ⟨t, chat, uid, un⟩) states =
      (setState states uid (some ⟨"startstop", "time_custom", d⟩),
       [⟨chat, "Введите время в формате чч:мм:", .cancelKb⟩], []) := by
  simp only [process_update, hs, ht]; simp +decide

theorem pu_time_accept (env : Env) (chat : Int) (uid : Nat) (un t : String) (d : FlowData)
    (states : UserStates) (hs : states uid = some ⟨"startstop", "time", d⟩)
    (hc : pyStrip t ≠ "Отмена") (h2 : pyStrip t ≠ "Другое время")
    (ht : validate_time_input (pyStrip t) = true) :
    process_update env (some ⟨t, chat, uid, un⟩) states =
      (setState states uid (some ⟨"startstop", "action", { d with time := some (pyStrip t) }⟩),
       [⟨chat, "Действие:", .actionMenu⟩], []) := by
  simp only [process_update, hs]; simp +decide [hc, h2, ht]

theorem pu_time_custom_accept (env : Env) (chat : Int) (uid : Nat) (un t : String) (d : FlowData)
    (states : UserStates) (hs : states uid = some ⟨"startstop", "time_custom", d⟩)
    (hc : pyStrip t ≠ "Отмена") (ht : validate_time_input (pyStrip t) = true) :
    process_update env (some ⟨t, chat, uid, un⟩) states =
      (setState states uid (some ⟨"startstop", "action", { d with time := some (pyStrip t) }⟩),
       [⟨chat, "Действие:", .actionMenu⟩], []) := by
  simp only [process_update, hs]; simp +decide [hc, ht]

theorem pu_action_start (env : Env) (chat : Int) (uid : Nat) (un t : String) (d : FlowData)
    (states : UserStates) (hs : states uid = some ⟨"startstop", "action", d⟩)
    (ht : pyStrip t = "Запуск") :
    process_update env (some ⟨t, chat, uid, un⟩) states =
      (setState states uid (some ⟨"startstop", "znp", { d with action := some "запуск" }⟩),
       [⟨chat, "Номер ЗНП (4 цифры):", .cancelKb⟩], []) := by
  simp only [process_update, hs, ht]; simp +decide

theorem pu_action_stop (env : Env) (chat : Int) (uid : Nat) (un t : String) (d : FlowData)
    (states : UserStates) (hs : states uid = some ⟨"startstop", "action", d⟩)
    (ht : pyStrip t = "Остановка") :
    process_update env (some ⟨t, chat, uid, un⟩) states =
      (setState states uid (some ⟨"startstop", "reason", { d with action := some "остановка" }⟩),
       [⟨chat, "Причина остановки:", .reasonsMenu env.reasons⟩], []) := by
  simp only [process_update, hs, ht]; simp +decide

theorem pu_reason_other (env : Env) (chat : Int) (uid : Nat) (un t : String) (d : FlowData)
    (states : UserStates) (hs : states uid = some ⟨"startstop", "reason", d⟩)
    (ht : pyStrip t = "Другое") :
    process_update env (some ⟨t, chat, uid, un⟩) states =
      (setState states uid (some ⟨"startstop", "reason_custom", d⟩),
       [⟨chat, "Введите причину остановки (текст):", .cancelKb⟩], []) := by
  simp only [process_update, hs, ht]; simp +decide

theorem pu_reason_store (env : Env) (chat : Int) (uid : Nat) (un t : String) (d : FlowData)
    (states : UserStates) (hs : states uid = some ⟨"startstop", "reason", d⟩)
    (hc : pyStrip t ≠ "Отмена") (h2 : pyStrip t ≠ "Другое") :
    process_update env (some ⟨t, chat, uid, un⟩) states =
      (setState states uid (some ⟨"startstop", "znp", { d with reason := some (pyStrip t) }⟩),
       [⟨chat, "Номер ЗНП (4 цифры):", .cancelKb⟩], []) := by
  simp only [process_update, hs]; simp +decide [hc, h2]

theorem pu_reason_custom_store (env : Env) (chat : Int) (uid : Nat) (un t : String) (d : FlowData)
    (states : UserStates) (hs : states uid = some ⟨"startstop", "reason_custom", d⟩)
    (hc : pyStrip t ≠ "Отмена") :
    process_update env (some ⟨t, chat, uid, un⟩) states =
      (setState states uid (some ⟨"startstop", "znp", { d with reason := some (pyStrip t) }⟩),
       [⟨chat, "Номер ЗНП (4 цифры):", .cancelKb⟩], []) := by
  simp only [process_update, hs]; simp +decide [hc]

theorem pu_znp_accept (env : Env) (chat : Int) (uid : Nat) (un t : String) (d : FlowData)
    (states : UserStates) (hs : states uid = some ⟨"startstop", "znp", d⟩)
    (hc : pyStrip t ≠ "Отмена") (hz : validate_znp (pyStrip t) = true) :
    process_update env (some ⟨t, chat, uid, un⟩) states =
      (setState states uid (some ⟨"startstop", "meters", { d with znp := some (pyStrip t) }⟩),
       [⟨chat, "Количество метров брака (целое число):", .cancelKb⟩], []) := by
  simp only [process_update, hs]; simp +decide [hc, hz]

theorem pu_znp_reject (env : Env) (chat : Int) (uid : Nat) (un t : String) (d : FlowData)
    (states : UserStates) (hs : states uid = some ⟨"startstop", "znp", d⟩)
    (hc : pyStrip t ≠ "Отмена") (hz : validate_znp (pyStrip t) = false) :
    process_update env (some ⟨t, chat, uid, un⟩) states =
      (states, [⟨chat, "Неверный формат ЗНП. Введите ровно 4 цифры:", .cancelKb⟩], []) := by
  simp only [process_update, hs]; simp +decide [hc, hz]

theorem pu_meters_final (env : Env) (chat : Int) (uid : Nat) (un t : String) (d : FlowData)
    (states : UserStates) (hs : states uid = some ⟨"startstop", "meters", d⟩)
    (hc : pyStrip t ≠ "Отмена") (hm : validate_meters (pyStrip t) = true) :
    process_update env (some ⟨t, chat, uid, un⟩) states =
      (setState states uid none,
       [⟨chat, confirmation_msg
          ⟨d.date_display.getD "", d.time.getD "", d.line.getD "", d.action.getD "",
           d.reason.getD "", d.znp.getD "", pyStrip t, user_repr uid un, env.ts, ""⟩, .mainMenu⟩],
       append_to_startstop_sheet_by_headers env.sinkOk
          ⟨d.date_display.getD "", d.time.getD "", d.line.getD "", d.action.getD "",
           d.reason.getD "", d.znp.getD "", pyStrip t, user_repr uid un, env.ts, ""⟩) := by
  simp only [process_update, hs]; simp +decide [hc, hm]

/-! ## Composition lemmas for multi-message runs -/

/-- Writing the same key twice keeps only the second write. -/
theorem setState_setState (s : UserStates) (u : Nat) (a b : Option ConvState) :
    setState (setState s u a) u b = setState s u b := by
  funext x
  by_cases h : x = u <;> simp [setState, h]

/-- A run over `xs ++ ys` is the run over `xs` followed by the run
over `ys` from the intermediate state, with sends and rows
concatenated. -/
theorem run_inputs_append (env : Env) (chat : Int) (uid : Nat) (un : String)
    (states : UserStates) (xs ys : List String) :
    run_inputs env chat uid un states (xs ++ ys) =
      ((run_inputs env chat uid un (run_inputs env chat uid un states xs).1 ys).1,
       (run_inputs env chat uid un states xs).2.1 ++
         (run_inputs env chat uid un (run_inputs env chat uid un states xs).1 ys).2.1,
       (run_inputs env chat uid un states xs).2.2 ++
         (run_inputs env chat uid un (run_inputs env chat uid un states xs).1 ys).2.2) := by
  induction xs generalizing states with
  | nil => simp [run_inputs]
  | cons x xs ih => simp [run_inputs, ih]

/-- The date step consumed along either path: directly (`dpath = false`,
one parseable message) or via the "Другая дата" button and the custom
step (`dpath = true`). Both land on the time step with the date fields
stored. -/
theorem run_date_segment (env : Env) (chat : Int) (uid : Nat) (un dt iso disp : String)
    (dpath : Bool) (d : FlowData) (states : UserStates)
    (hs : states uid = some ⟨"startstop", "date", d⟩)
    (hdt : parse_date_input (pyStrip dt) = some (iso, disp))
    (hdtC : pyStrip dt ≠ "Отмена")
    (hdtS : dpath = false → pyStrip dt ≠ "Другая дата") :
    run_inputs env chat uid un states (if dpath then ["Другая дата", dt] else [dt]) =
      (setState states uid (some ⟨"startstop", "time",
         { d with date_iso := some iso, date_display := some disp }⟩),
       (if dpath then
          [⟨chat, "Введите дату в формате дд.мм.гггг:", .cancelKb⟩,
           ⟨chat, "Время (чч:мм):", .timeMenu⟩]
        else [⟨chat, "Время (чч:мм):", .timeMenu⟩]),
       []) := by
  cases dpath with
  | false =>
    have e := pu_date_accept env chat uid un dt iso disp d states hs hdtC (hdtS rfl) hdt
    simp [run_inputs, e]
  | true =>
    have e1 := pu_date_sentinel env chat uid un "Другая дата" d states hs (by decide)
    have e2 := pu_date_custom_accept env chat uid un dt iso disp d
      (setState states uid (some ⟨"startstop", "date_custom", d⟩))
      (by simp [setState]) hdtC hdt
    simp [run_inputs, e1, e2, setState_setState]

/-- The time step consumed along either path: directly or via "Другое
время" and the custom step. Both land on the action step with the time
stored. -/
theorem run_time_segment (env : Env) (chat : Int) (uid : Nat) (un tm : String)
    (tpath : Bool) (d : FlowData) (states : UserStates)
    (hs : states uid = some ⟨"startstop", "time", d⟩)
    (htm : validate_time_input (pyStrip tm) = true)
    (htmC : pyStrip tm ≠ "Отмена")
    (htmS : tpath = false → pyStrip tm ≠ "Другое время") :
    run_inputs env chat uid un states (if tpath then ["Другое время", tm] else [tm]) =
      (setState states uid (some ⟨"startstop", "action", { d with time := some (pyStrip tm) }⟩),
       (if tpath then
          [⟨chat, "Введите время в формате чч:мм:", .cancelKb⟩,
           ⟨chat, "Действие:", .actionMenu⟩]
        else [⟨chat, "Действие:", .actionMenu⟩]),
       []) := by
  cases tpath with
  | false =>
    have e := pu_time_accept env chat uid un tm d states hs htmC (htmS rfl) htm
    simp [run_inputs, e]
  | true =>
    have e1 := pu_time_sentinel env chat uid un "Другое время" d states hs (by decide)
    have e2 := pu_time_custom_accept env chat uid un tm d
      (setState states uid (some ⟨"startstop", "time_custom", d⟩))
      (by simp [setState]) htmC htm
    simp [run_inputs, e1, e2, setState_setState]

/-- The action step and, for a Stop, the reason step, along either
reason path: `act = true` is "Запуск" (no reason asked); `act = false`
is "Остановка" followed by a listed reason (`rpath = false`) or by
"Другое" and a free-text reason (`rpath = true`). All land on the
reference-code step with the action stored and, for a Stop, the
reason stored. -/
theorem run_action_reason_segment (env : Env) (chat : Int) (uid : Nat) (un r : String)
    (act rpath : Bool) (d : FlowData) (states : UserStates)
    (hs : states uid = some ⟨"startstop", "action", d⟩)
    (hrC : act = false → pyStrip r ≠ "Отмена")
    (hrS : act = false → rpath = false → pyStrip r ≠ "Другое") :
    run_inputs env chat uid un states
        (if act then ["Запуск"] else "Остановка" :: (if rpath then ["Другое", r] else [r])) =
      (setState states uid (some ⟨"startstop", "znp",
         { d with action := some (if act then "запуск" else "остановка"),
                  reason := if act then d.reason else some (pyStrip r) }⟩),
       (if act then [⟨chat, "Номер ЗНП (4 цифры):", .cancelKb⟩]
        else if rpath then
          [⟨chat, "Причина остановки:", .reasonsMenu env.reasons⟩,
           ⟨chat, "Введите причину остановки (текст):", .cancelKb⟩,
           ⟨chat, "Номер ЗНП (4 цифры):", .cancelKb⟩]
        else
          [⟨chat, "Причина остановки:", .reasonsMenu env.reasons⟩,
           ⟨chat, "Номер ЗНП (4 цифры):", .cancelKb⟩]),
       []) := by
  cases act with
  | true =>
    have e := pu_action_start env chat uid un "Запуск" d states hs (by decide)
    simp [run_inputs, e]
  | false =>
    have e1 := pu_action_stop env chat uid un "Остановка" d states hs (by decide)
    cases rpath with
    | false =>
      have e2 := pu_reason_store env chat uid un r { d with action := some "остановка" }
        (setState states uid (some ⟨"startstop", "reason", { d with action := some "остановка" }⟩))
        (by simp [setState]) (hrC rfl) (hrS rfl rfl)
      simp [run_inputs, e1, e2, setState_setState]
    | true =>
      have e2 := pu_reason_other env chat uid un "Другое" { d with action := some "остановка" }
        (setState states uid (some ⟨"startstop", "reason", { d with action := some "остановка" }⟩))
        (by simp [setState]) (by decide)
      have e3 := pu_reason_custom_store env chat uid un r { d with action := some "остановка" }
        (setState states uid
          (some ⟨"startstop", "reason_custom", { d with action := some "остановка" }⟩))
        (by simp [setState]) (hrC rfl)
      simp [run_inputs, e1, e2, e3, setState_setState]

/-! ## Claim theorems -/

/-- C1: an operator who completes the Start/Stop flow — valid line,
date (entered directly or through the "Другая дата" custom step), time
(directly or through "Другое время"), either action ("Запуск" or
"Остановка"), a reason when the action was Stop (picked from the list
or typed after "Другое"), reference code and scrap length all accepted
— gets exactly one record appended carrying every accepted field plus
the operator's identity and the submission timestamp; one confirmation
summarizing every field is the final send; and the conversation state
is deleted, so the next message is interpreted as a main-menu
selection. The booleans range over every completion path of the flow. -/
theorem startstop_completion_appends_one_record (env : Env) (chat : Int) (uid : Nat) (un : String)
    (dpath tpath act rpath : Bool)
    (l dt tm r z m iso disp : String) (states : UserStates)
    (hstart : states uid = none)
    (hsink : env.sinkOk = true)
    (hl : accepts_line (pyStrip l) = true) (hlC : pyStrip l ≠ "Отмена")
    (hdt : parse_date_input (pyStrip dt) = some (iso, disp))
    (hdtC : pyStrip dt ≠ "Отмена") (hdtS : dpath = false → pyStrip dt ≠ "Другая дата")
    (htm : validate_time_input (pyStrip tm) = true)
    (htmC : pyStrip tm ≠ "Отмена") (htmS : tpath = false → pyStrip tm ≠ "Другое время")
    (hrC : act = false → pyStrip r ≠ "Отмена")
    (hrS : act = false → rpath = false → pyStrip r ≠ "Другое")
    (hz : validate_znp (pyStrip z) = true) (hzC : pyStrip z ≠ "Отмена")
    (hm : validate_meters (pyStrip m) = true) (hmC : pyStrip m ≠ "Отмена") :
    (run_inputs env chat uid un states
        ("Старт/Стоп" :: l :: ((if dpath then ["Другая дата", dt] else [dt]) ++
          ((if tpath then ["Другое время", tm] else [tm]) ++
           ((if act then ["Запуск"] else "Остановка" :: (if rpath then ["Другое", r] else [r])) ++
            [z, m]))))).1 uid = none ∧
    (run_inputs env chat uid un states
        ("Старт/Стоп" :: l :: ((if dpath then ["Другая дата", dt] else [dt]) ++
          ((if tpath then ["Другое время", tm] else [tm]) ++
           ((if act then ["Запуск"] else "Остановка" :: (if rpath then ["Другое", r] else [r])) ++
            [z, m]))))).2.2 =
      [[disp, pyStrip tm, pyStrip l, (if act then "Запуск" else "Остановка"),
        (if act then "" else pyStrip r), pyStrip z, pyStrip m, user_repr uid un, env.ts, ""]] ∧
    (run_inputs env chat uid un states
        ("Старт/Стоп" :: l :: ((if dpath then ["Другая дата", dt] else [dt]) ++
          ((if tpath then ["Другое время", tm] else [tm]) ++
           ((if act then ["Запуск"] else "Остановка" :: (if rpath then ["Другое", r] else [r])) ++
            [z, m]))))).2.1.getLast? =
      some ⟨chat, confirmation_msg ⟨disp, pyStrip tm, pyStrip l,
        (if act then "запуск" else "остановка"), (if act then "" else pyStrip r), pyStrip z,
        pyStrip m, user_repr uid un, env.ts, ""⟩, .mainMenu⟩ := by
  have e1 := pu_nostate_start env chat uid un "Старт/Стоп" states hstart (by decide)
  simp only [start_startstop_flow] at e1
  have e2 := pu_line_accept env chat uid un l
    ⟨uid, un, chat, none, none, none, none, none, none, none, none⟩
    (setState states uid (some ⟨"startstop", "line",
      ⟨uid, un, chat, none, none, none, none, none, none, none, none⟩⟩))
    (by simp [setState]) hl hlC
  have E3 := run_date_segment env chat uid un dt iso disp dpath
    ⟨uid, un, chat, some (pyStrip l), none, none, none, none, none, none, none⟩
    (setState (setState states uid (some ⟨"startstop", "line",
      ⟨uid, un, chat, none, none, none, none, none, none, none, none⟩⟩)) uid
      (some ⟨"startstop", "date",
        ⟨uid, un, chat, some (pyStrip l), none, none, none, none, none, none, none⟩⟩))
    (by simp [setState]) hdt hdtC hdtS
  have E4 := run_time_segment env chat uid un tm tpath
    ⟨uid, un, chat, some (pyStrip l), some iso, some disp, none, none, none, none, none⟩
    (setState (setState (setState states uid (some ⟨"startstop", "line",
      ⟨uid, un, chat, none, none, none, none, none, none, none, none⟩⟩)) uid
      (some ⟨"startstop", "date",
        ⟨uid, un, chat, some (pyStrip l), none, none, none, none, none, none, none⟩⟩)) uid
      (some ⟨"startstop", "time",
        ⟨uid, un, chat, some (pyStrip l), some iso, some disp, none, none, none, none, none⟩⟩))
    (by simp [setState]) htm htmC htmS
  have E5 := run_action_reason_segment env chat uid un r act rpath
    ⟨uid, un, chat, some (pyStrip l), some iso, some disp, some (pyStrip tm),
     none, none, none, none⟩
    (setState (setState (setState (setState states uid (some ⟨"startstop", "line",
      ⟨uid, un, chat, none, none, none, none, none, none, none, none⟩⟩)) uid
      (some ⟨"startstop", "date",
        ⟨uid, un, chat, some (pyStrip l), none, none, none, none, none, none, none⟩⟩)) uid
      (some ⟨"startstop", "time",
        ⟨uid, un, chat, some (pyStrip l), some iso, some disp, none, none, none, none, none⟩⟩)) uid
      (some ⟨"startstop", "action",
        ⟨uid, un, chat, some (pyStrip l), some iso, some disp, some (pyStrip tm),
         none, none, none, none⟩⟩))
    (by simp [setState]) hrC hrS
  have e6 := pu_znp_accept env chat uid un z
    ⟨uid, un, chat, some (pyStrip l), some iso, some disp, some (pyStrip tm),
     some (if act then "запуск" else "остановка"), (if act then none else some (pyStrip r)),
     none, none⟩
    (setState (setState (setState (setState (setState states uid (some ⟨"startstop", "line",
      ⟨uid, un, chat, none, none, none, none, none, none, none, none⟩⟩)) uid
      (some ⟨"startstop", "date",
        ⟨uid, un, chat, some (pyStrip l), none, none, none, none, none, none, none⟩⟩)) uid
      (some ⟨"startstop", "time",
        ⟨uid, un, chat, some (pyStrip l), some iso, some disp, none, none, none, none, none⟩⟩)) uid
      (some ⟨"startstop", "action",
        ⟨uid, un, chat, some (pyStrip l), some iso, some disp, some (pyStrip tm),
         none, none, none, none⟩⟩)) uid
      (some ⟨"startstop", "znp",
        ⟨uid, un, chat, some (pyStrip l), some iso, some disp, some (pyStrip tm),
         some (if act then "запуск" else "остановка"), (if act then none else some (pyStrip r)),
         none, none⟩⟩))
    (by simp [setState]) hzC hz
  have e7 := pu_meters_final env chat uid un m
    ⟨uid, un, chat, some (pyStrip l), some iso, some disp, some (pyStrip tm),
     some (if act then "запуск" else "остановка"), (if act then none else some (pyStrip r)),
     some (pyStrip z), none⟩
    (setState (setState (setState (setState (setState (setState states uid
      (some ⟨"startstop", "line",
        ⟨uid, un, chat, none, none, none, none, none, none, none, none⟩⟩)) uid
      (some ⟨"startstop", "date",
        ⟨uid, un, chat, some (pyStrip l), none, none, none, none, none, none, none⟩⟩)) uid
      (some ⟨"startstop", "time",
        ⟨uid, un, chat, some (pyStrip l), some iso, some disp, none, none, none, none, none⟩⟩)) uid
      (some ⟨"startstop", "action",
        ⟨uid, un, chat, some (pyStrip l), some iso, some disp, some (pyStrip tm),
         none, none, none, none⟩⟩)) uid
      (some ⟨"startstop", "znp",
        ⟨uid, un, chat, some (pyStrip l), some iso, some disp, some (pyStrip tm),
         some (if act then "запуск" else "остановка"), (if act then none else some (pyStrip r)),
         none, none⟩⟩)) uid
      (some ⟨"startstop", "meters",
        ⟨uid, un, chat, some (pyStrip l), some iso, some disp, some (pyStrip tm),
         some (if act then "запуск" else "остановка"), (if act then none else some (pyStrip r)),
         some (pyStrip z), none⟩⟩))
    (by simp [setState]) hmC hm
  simp only [run_inputs, run_inputs_append, e1, e2, E3, E4, E5, e6, e7]
  cases act <;>
    simp [setState, append_to_startstop_sheet_by_headers, startstop_row, display_action, hsink,
      List.getLast?_append, List.getLast?_cons]

/-- Witness for C1, on the previously uncovered Start-action path with
both custom sub-steps: "Старт/Стоп", "3", "Другая дата", "01.02.2024",
"Другое время", "08:00", "Запуск", "1234", "50" appends exactly the
expected row (action "Запуск", empty reason), the confirmation is the
final send, and the state is cleared. -/
theorem startstop_completion_appends_one_record_witness :
    (run_inputs ⟨["Поломка", "Другое"], "2024-02-01 08:30:00", true⟩ 55 7 "op" (fun _ => none)
        ["Старт/Стоп", "3", "Другая дата", "01.02.2024", "Другое время", "08:00", "Запуск",
         "1234", "50"]).1 7 = none ∧
    (run_inputs ⟨["Поломка", "Другое"], "2024-02-01 08:30:00", true⟩ 55 7 "op" (fun _ => none)
        ["Старт/Стоп", "3", "Другая дата", "01.02.2024", "Другое время", "08:00", "Запуск",
         "1234", "50"]).2.2 =
      [["01.02.2024", "08:00", "3", "Запуск", "", "1234", "50",
        user_repr 7 "op", "2024-02-01 08:30:00", ""]] ∧
    (run_inputs ⟨["Поломка", "Другое"], "2024-02-01 08:30:00", true⟩ 55 7 "op" (fun _ => none)
        ["Старт/Стоп", "3", "Другая дата", "01.02.2024", "Другое время", "08:00", "Запуск",
         "1234", "50"]).2.1.getLast? =
      some ⟨55, confirmation_msg ⟨"01.02.2024", "08:00", "3", "запуск", "", "1234", "50",
        user_repr 7 "op", "2024-02-01 08:30:00", ""⟩, .mainMenu⟩ :=
  startstop_completion_appends_one_record ⟨["Поломка", "Другое"], "2024-02-01 08:30:00", true⟩
    55 7 "op" true true true false "3" "01.02.2024" "08:00" "" "1234" "50"
    "2024-02-01" "01.02.2024" (fun _ => none) rfl rfl (by decide) (by decide) (by decide)
    (by decide) (by decide) (by decide) (by decide) (by decide) (by decide) (by decide)
    (by decide) (by decide) (by decide) (by decide)


/-- C5: from every step of an active conversation, an inbound text
whose stripped form is the cancel sentinel deletes the conversation
state, sends one cancellation acknowledgment, and writes no record;
the check runs before any step-specific parsing (the equation holds
uniformly in the step, including steps that would otherwise consume
the text, such as `reason_custom`). -/
theorem cancel_sentinel_clears_state (env : Env) (chat : Int) (uid : Nat) (un t s : String)
    (d : FlowData) (states : UserStates)
    (hs : states uid = some ⟨"startstop", s, d⟩) (ht : pyStrip t = "Отмена") :
    process_update env (some ⟨t, chat, uid, un⟩) states =
      (setState states uid none, [⟨chat, "Отменено.", .mainMenu⟩], []) :=
  pu_cancel env chat uid un t s d states hs ht

/-- Witness for C5: cancelling at the free-text reason step clears the
state, acknowledges, and appends nothing. -/
theorem cancel_sentinel_clears_state_witness :
    process_update ⟨["Другое"], "ts", true⟩ (some ⟨"Отмена", 55, 7, "op"⟩)
        (fun u => if u = 7 then some ⟨"startstop", "reason_custom",
          ⟨7, "op", 55, some "3", none, none, none, some "остановка", none, none, none⟩⟩
         else none) =
      (setState (fun u => if u = 7 then some ⟨"startstop", "reason_custom",
          ⟨7, "op", 55, some "3", none, none, none, some "остановка", none, none, none⟩⟩
         else none) 7 none,
       [⟨55, "Отменено.", .mainMenu⟩], []) :=
  cancel_sentinel_clears_state ⟨["Другое"], "ts", true⟩ 55 7 "op" "Отмена" "reason_custom"
    ⟨7, "op", 55, some "3", none, none, none, some "остановка", none, none, none⟩
    _ rfl (by decide)

/-- C7: whenever a step's validation rejects the input, the whole
state table is returned unchanged — the step pointer does not advance
and no accumulated field is modified — one re-prompt for the same step
is sent, and nothing is appended. -/
theorem rejected_input_leaves_state_unchanged (env : Env) (chat : Int) (uid : Nat) (un t s : String)
    (d : FlowData) (states : UserStates)
    (hs : states uid = some ⟨"startstop", s, d⟩)
    (hc : pyStrip t ≠ "Отмена")
    (hr : rejectedAt s (pyStrip t)) :
    process_update env (some ⟨t, chat, uid, un⟩) states =
      (states, [reprompt_send s chat], []) := by
  by_cases h1 : s = "line"
  · subst h1
    simp +decide [rejectedAt] at hr
    simp only [process_update, hs]
    simp +decide [hc, hr, reprompt_send]
  by_cases h2 : s = "date"
  · subst h2
    simp +decide [rejectedAt] at hr
    simp only [process_update, hs]
    simp +decide [hc, hr.1, hr.2, reprompt_send]
  by_cases h3 : s = "date_custom"
  · subst h3
    simp +decide [rejectedAt] at hr
    simp only [process_update, hs]
    simp +decide [hc, hr, reprompt_send]
  by_cases h4 : s = "time"
  · subst h4
    simp +decide [rejectedAt] at hr
    simp only [process_update, hs]
    simp +decide [hc, hr.1, hr.2, reprompt_send]
  by_cases h5 : s = "time_custom"
  · subst h5
    simp +decide [rejectedAt] at hr
    simp only [process_update, hs]
    simp +decide [hc, hr, reprompt_send]
  by_cases h6 : s = "action"
  · subst h6
    simp +decide [rejectedAt] at hr
    simp only [process_update, hs]
    simp +decide [hc, hr.1, hr.2, reprompt_send]
  by_cases h7 : s = "znp"
  · subst h7
    simp +decide [rejectedAt] at hr
    simp only [process_update, hs]
    simp +decide [hc, hr, reprompt_send]
  by_cases h8 : s = "meters"
  · subst h8
    simp +decide [rejectedAt] at hr
    simp only [process_update, hs]
    simp +decide [hc, hr, reprompt_send]
  · simp only [rejectedAt, if_neg h1, if_neg h2, if_neg h3, if_neg h4, if_neg h5, if_neg h6,
      if_neg h7, if_neg h8] at hr

/-- Witness for C7: a non-numeric line number is rejected and the
state table is returned unchanged with one re-prompt. -/
theorem rejected_input_leaves_state_unchanged_witness :
    process_update ⟨["Другое"], "ts", true⟩ (some ⟨"abc", 55, 7, "op"⟩)
        (fun u => if u = 7 then some ⟨"startstop", "line",
          ⟨7, "op", 55, none, none, none, none, none, none, none, none⟩⟩ else none) =
      ((fun u => if u = 7 then some ⟨"startstop", "line",
          ⟨7, "op", 55, none, none, none, none, none, none, none, none⟩⟩ else none),
       [reprompt_send "line" 55], []) :=
  rejected_input_leaves_state_unchanged ⟨["Другое"], "ts", true⟩ 55 7 "op" "abc" "line"
    ⟨7, "op", 55, none, none, none, none, none, none, none, none⟩ _ rfl (by decide)
    (by simp +decide [rejectedAt])

/-- C8: an inbound event whose `update_id` is still in the recent-id
cache is dropped before the flow engine runs: the state table, the
cache, the sends and the appended rows are all unchanged. -/
theorem duplicate_update_is_dropped (env : Env) (upd : Update) (states : UserStates)
    (d : DedupState) (i : Nat) (hid : upd.update_id = some i) (hmem : i ∈ d.ids) :
    webhook_step env upd states d = (false, states, d, [], []) := by
  simp only [webhook_step, hid, is_duplicate_update, if_pos hmem]
  simp

/-- Witness for C8: redelivering update id 42 with 42 already cached
mutates nothing and sends nothing. -/
theorem duplicate_update_is_dropped_witness :
    webhook_step ⟨["Другое"], "ts", true⟩ ⟨some 42, some ⟨"Старт/Стоп", 55, 7, "op"⟩⟩
        (fun _ => none) ⟨[42], [42]⟩ =
      (false, (fun _ => none), ⟨[42], [42]⟩, [], []) :=
  duplicate_update_is_dropped ⟨["Другое"], "ts", true⟩ ⟨some 42, some ⟨"Старт/Стоп", 55, 7, "op"⟩⟩
    (fun _ => none) ⟨[42], [42]⟩ 42 rfl (by decide)

/-- C10: an inbound event with no `update_id` bypasses the duplicate
cache entirely: the cache is untouched and the event is handed to the
flow engine; since this equation holds for every cache state, every
redelivery of such an event is processed again. -/
theorem missing_update_id_bypasses_dedup (env : Env) (m : Option MsgIn) (states : UserStates)
    (d : DedupState) :
    webhook_step env ⟨none, m⟩ states d =
      (true, (process_update env m states).1, d,
       (process_update env m states).2.1, (process_update env m states).2.2) := rfl

/-- C2 counterexample: with no active state, sending "Брак" (the
Defect main-menu selection) leaves the state table exactly as it was —
the all-`none` table — and only replies that the section is not
implemented; no Defect-flow state at the line step is created. -/
theorem defect_selection_creates_no_state_cx :
    process_update sampleEnv (some ⟨"Брак", 55, 7, "op"⟩) (fun _ => none) =
      ((fun _ => none : UserStates),
       [⟨55, "Раздел «Брак» пока не реализован.", .mainMenu⟩], []) :=
  pu_nostate_brak sampleEnv 55 7 "op" "Брак" (fun _ => none) rfl (by decide)

/-- C2 amended: with no active state, "Старт/Стоп" creates a StartStop
state at the line step; "Брак" and "Отменить последнюю запись" send a
not-implemented notice without creating state; any other text re-sends
the main menu without creating state. -/
theorem no_state_main_menu_dispatch (env : Env) (chat : Int) (uid : Nat) (un t : String)
    (states : UserStates) (hs : states uid = none) :
    (pyStrip t = "Старт/Стоп" →
      process_update env (some ⟨t, chat, uid, un⟩) states =
        (setState states uid (some (start_startstop_flow uid un chat)),
         [⟨chat, "Номер линии (1-15):", .cancelKb⟩], [])) ∧
    (pyStrip t = "Брак" →
      process_update env (some ⟨t, chat, uid, un⟩) states =
        (states, [⟨chat, "Раздел «Брак» пока не реализован.", .mainMenu⟩], [])) ∧
    (pyStrip t = "Отменить последнюю запись" →
      process_update env (some ⟨t, chat, uid, un⟩) states =
        (states, [⟨chat, "Функция отмены пока не реализована.", .mainMenu⟩], [])) ∧
    (pyStrip t ≠ "Старт/Стоп" → pyStrip t ≠ "Брак" → pyStrip t ≠ "Отменить последнюю запись" →
      process_update env (some ⟨t, chat, uid, un⟩) states =
        (states, [⟨chat, "Выберите действие:", .mainMenu⟩], [])) :=
  ⟨pu_nostate_start env chat uid un t states hs,
   pu_nostate_brak env chat uid un t states hs,
   pu_nostate_cancel_last env chat uid un t states hs,
   fun h1 h2 h3 => pu_nostate_other env chat uid un t states hs h1 h2 h3⟩

/-- Witness for the amended C2: unrecognized text from the idle state
re-sends the main menu and creates no state. -/
theorem no_state_main_menu_dispatch_witness :
    process_update sampleEnv (some ⟨"hello", 55, 7, "op"⟩) (fun _ => none) =
      ((fun _ => none : UserStates), [⟨55, "Выберите действие:", .mainMenu⟩], []) :=
  (no_state_main_menu_dispatch sampleEnv 55 7 "op" "hello" (fun _ => none) rfl).2.2.2
    (by decide) (by decide) (by decide)

/-- C3 counterexample: the reference-code step accepts the bare 4-digit
input "1234" (which is not of the specified 10-character composite
form) and advances, and rejects "D0925-1234", which is of the
composite form with a valid 5-character head. -/
theorem znp_step_accepts_bare_four_digits_cx :
    validate_znp "1234" = true ∧
    spec_znp_accept ["D0925", "L0925", "D0825", "L0825"] "1234" = false ∧
    validate_znp "D0925-1234" = false ∧
    spec_znp_accept ["D0925", "L0925", "D0825", "L0825"] "D0925-1234" = true ∧
    (process_update sampleEnv (some ⟨"1234", 55, 7, "op"⟩) (sampleStates "znp" sampleZnpData)).1 7 =
      some ⟨"startstop", "meters", { sampleZnpData with znp := some "1234" }⟩ ∧
    process_update sampleEnv (some ⟨"D0925-1234", 55, 7, "op"⟩) (sampleStates "znp" sampleZnpData) =
      (sampleStates "znp" sampleZnpData,
       [⟨55, "Неверный формат ЗНП. Введите ровно 4 цифры:", .cancelKb⟩], []) :=
  ⟨by decide, by decide, by decide, by decide, rfl, rfl⟩

/-- C3 amended: at the reference-code step an input is accepted and
stored iff its stripped form is exactly 4 ASCII digits; anything else
re-prompts the same step. No composite-prefix form is involved. -/
theorem znp_step_accepts_exactly_four_digits (env : Env) (chat : Int) (uid : Nat) (un t : String)
    (d : FlowData) (states : UserStates)
    (hs : states uid = some ⟨"startstop", "znp", d⟩) (hc : pyStrip t ≠ "Отмена") :
    (validate_znp (pyStrip t) = true →
      process_update env (some ⟨t, chat, uid, un⟩) states =
        (setState states uid (some ⟨"startstop", "meters", { d with znp := some (pyStrip t) }⟩),
         [⟨chat, "Количество метров брака (целое число):", .cancelKb⟩], [])) ∧
    (validate_znp (pyStrip t) = false →
      process_update env (some ⟨t, chat, uid, un⟩) states =
        (states, [⟨chat, "Неверный формат ЗНП. Введите ровно 4 цифры:", .cancelKb⟩], [])) :=
  ⟨fun hz => pu_znp_accept env chat uid un t d states hs hc hz,
   fun hz => pu_znp_reject env chat uid un t d states hs hc hz⟩

/-- Witness for the amended C3: "1234" is stored and the flow advances
to the scrap-length step. -/
theorem znp_step_accepts_exactly_four_digits_witness :
    process_update sampleEnv (some ⟨"1234", 55, 7, "op"⟩) (sampleStates "znp" sampleZnpData) =
      (setState (sampleStates "znp" sampleZnpData) 7
         (some ⟨"startstop", "meters", { sampleZnpData with znp := some (pyStrip "1234") }⟩),
       [⟨55, "Количество метров брака (целое число):", .cancelKb⟩], []) :=
  (znp_step_accepts_exactly_four_digits sampleEnv 55 7 "op" "1234" sampleZnpData
    (sampleStates "znp" sampleZnpData) rfl (by decide)).1 (by decide)

/-- C4 counterexample: at the reason step, the input "xyz" is not in
the current reason list, yet it is stored as the reason and the flow
advances to the reference-code step, instead of re-prompting with the
list and storing nothing. -/
theorem reason_step_stores_unlisted_input_cx :
    "xyz" ∉ sampleEnv.reasons ∧
    process_update sampleEnv (some ⟨"xyz", 55, 7, "op"⟩) (sampleStates "reason" sampleReasonData) =
      (setState (sampleStates "reason" sampleReasonData) 7
         (some ⟨"startstop", "znp", { sampleReasonData with reason := some "xyz" }⟩),
       [⟨55, "Номер ЗНП (4 цифры):", .cancelKb⟩], []) :=
  ⟨by decide, rfl⟩

/-- C4 amended: at the reason step, "Другое" routes to the free-text
reason step; any other input except the cancel sentinel — listed in
the reference list or not — is stored as the reason and the flow
advances to the reference-code step; no input re-prompts this step. -/
theorem reason_step_stores_any_text (env : Env) (chat : Int) (uid : Nat) (un t : String)
    (d : FlowData) (states : UserStates)
    (hs : states uid = some ⟨"startstop", "reason", d⟩) :
    (pyStrip t = "Другое" →
      process_update env (some ⟨t, chat, uid, un⟩) states =
        (setState states uid (some ⟨"startstop", "reason_custom", d⟩),
         [⟨chat, "Введите причину остановки (текст):", .cancelKb⟩], [])) ∧
    (pyStrip t ≠ "Отмена" → pyStrip t ≠ "Другое" →
      process_update env (some ⟨t, chat, uid, un⟩) states =
        (setState states uid (some ⟨"startstop", "znp", { d with reason := some (pyStrip t) }⟩),
         [⟨chat, "Номер ЗНП (4 цифры):", .cancelKb⟩], [])) :=
  ⟨pu_reason_other env chat uid un t d states hs,
   fun h1 h2 => pu_reason_store env chat uid un t d states hs h1 h2⟩

/-- Witness for the amended C4: the listed reason "Поломка" is stored
and the flow advances. -/
theorem reason_step_stores_any_text_witness :
    process_update sampleEnv (some ⟨"Поломка", 55, 7, "op"⟩)
        (sampleStates "reason" sampleReasonData) =
      (setState (sampleStates "reason" sampleReasonData) 7
         (some ⟨"startstop", "znp", { sampleReasonData with reason := some (pyStrip "Поломка") }⟩),
       [⟨55, "Номер ЗНП (4 цифры):", .cancelKb⟩], []) :=
  (reason_step_stores_any_text sampleEnv 55 7 "op" "Поломка" sampleReasonData
    (sampleStates "reason" sampleReasonData) rfl).2 (by decide) (by decide)

/-- C6: when the sheet append fails at finalize time (`sinkOk = false`
models the Python `except` path, which only logs), the operator still
receives the "Записано!" success confirmation, the conversation state
is cleared, and nothing was appended: the completed form is silently
dropped, contrary to the claim's required failure notice or retryable
conversation. -/
theorem sink_failure_silently_drops_record :
    process_update ⟨["Поломка", "Другое"], "2024-02-01 08:30:00", false⟩
        (some ⟨"50", 55, 7, "op"⟩) (sampleStates "meters" sampleMetersData) =
      (setState (sampleStates "meters" sampleMetersData) 7 none,
       [⟨55, confirmation_msg ⟨"01.02.2024", "08:00", "3", "остановка", "Поломка", "1234", "50",
          user_repr 7 "op", "2024-02-01 08:30:00", ""⟩, .mainMenu⟩],
       []) := rfl

/-- A list with nodup elements counts exactly one match when a member
satisfies the predicate and is the only one allowed to. -/
theorem countP_eq_one_of_unique {α : Type} (l : List α) (p : α → Bool) (e : α)
    (hnd : l.Nodup) (he : e ∈ l) (hpe : p e = true)
    (hu : ∀ x ∈ l, p x = true → x = e) :
    l.countP p = 1 := by
  induction l with
  | nil => simp at he
  | cons a t ih =>
    rcases List.mem_cons.mp he with rfl | het
    · have ht0 : t.countP p = 0 := by
        refine List.countP_eq_zero.mpr (fun x hx hpx => ?_)
        have := hu x (List.mem_cons_of_mem _ hx) hpx
        subst this
        exact (List.nodup_cons.mp hnd).1 hx
      rw [List.countP_cons, ht0, hpe]
      simp
    · have hpa : p a = false := by
        by_contra hpa
        have hpa' : p a = true := by revert hpa; cases p a <;> simp
        have := hu a (List.mem_cons_self a t) hpa'
        subst this
        exact (List.nodup_cons.mp hnd).1 het
      rw [List.countP_cons, hpa]
      simp only [if_false, Bool.false_eq_true, Nat.add_zero]
      exact ih (List.nodup_cons.mp hnd).2 het
        (fun x hx hpx => hu x (List.mem_cons_of_mem _ hx) hpx)

/-- C9 (reaper modelled from the spec; the sweep and the
`lastActivityTime` field are not in `src/bot_webhook.py`): an input
refreshes the conversation's `lastActivityTime`; one sweep at a time
past the 600 s timeout removes the idle conversation and produces
exactly one idle-cancellation notice for it (one notice per removed
conversation); and the operator's next "Старт/Стоп" message against
the reaped store is handled by the embedded flow engine's no-state
branch, starting a fresh conversation from the main menu. -/
theorem idle_reaper_removes_and_notifies_once (env : Env) (chat2 : Int) (un t : String)
    (uid : Nat) (now now2 : Nat) (store : TimedStore) (e : TimedEntry)
    (h1 : lookup_timed store uid = some e)
    (h2 : now > e.lastActivityTime + idle_timeout)
    (h3 : (store.map TimedEntry.uid).Nodup)
    (ht : pyStrip t = "Старт/Стоп") :
    lookup_timed (touch_activity now2 uid store) uid = some ⟨uid, e.conv, now2⟩ ∧
    lookup_timed (reap_kept now store) uid = none ∧
    (reap_removed now store).countP (fun x => x.uid = uid) = 1 ∧
    (reap_notices now store).length = (reap_removed now store).length ∧
    process_update env (some ⟨t, chat2, uid, un⟩) (timed_to_states (reap_kept now store)) =
      (setState (timed_to_states (reap_kept now store)) uid
         (some (start_startstop_flow uid un chat2)),
       [⟨chat2, "Номер линии (1-15):", .cancelKb⟩], []) := by
  have heuid : e.uid = uid := by
    have := List.find?_some h1
    simpa using this
  have hemem : e ∈ store := List.mem_of_find?_eq_some h1
  have huniq : ∀ x ∈ store, x.uid = uid → x = e := by
    intro x hx hxu
    exact List.inj_on_of_nodup_map h3 hx hemem (by rw [hxu, heuid])
  have hexp : entry_expired now e = true := by
    simp [entry_expired, h2]
  have hkept : lookup_timed (reap_kept now store) uid = none := by
    refine List.find?_eq_none.mpr (fun x hx hpx => ?_)
    have hx' := List.mem_filter.mp hx
    have hxu : x.uid = uid := by simpa using hpx
    have := huniq x hx'.1 hxu
    subst this
    rw [hexp] at hx'
    simp at hx'
  refine ⟨?_, hkept, ?_, by simp [reap_notices], ?_⟩
  · unfold lookup_timed touch_activity
    rw [List.find?_map]
    have hpeq : ((fun x : TimedEntry => decide (x.uid = uid)) ∘
        (fun e' : TimedEntry => if e'.uid = uid then ⟨e'.uid, e'.conv, now2⟩ else e')) =
        (fun e' : TimedEntry => decide (e'.uid = uid)) := by
      funext x
      simp only [Function.comp_apply]
      by_cases hxu : x.uid = uid
      · simp [hxu]
      · rw [if_neg hxu]
    rw [hpeq]
    have hfind : store.find? (fun e' : TimedEntry => decide (e'.uid = uid)) = some e := h1
    rw [hfind]
    simp [heuid]
  · refine countP_eq_one_of_unique _ _ e ?_ ?_ ?_ ?_
    · exact List.Nodup.filter _ (List.Nodup.of_map _ h3)
    · exact List.mem_filter.mpr ⟨hemem, hexp⟩
    · simp [heuid]
    · intro x hx hpx
      exact huniq x (List.mem_filter.mp hx).1 (by simpa using hpx)
  · exact pu_nostate_start env chat2 uid un t (timed_to_states (reap_kept now store))
      (by simp [timed_to_states, hkept]) ht

/-- Witness for C9: one conversation last active at time 0, swept at
time 1000, is removed with exactly one notice, and the operator's
next "Старт/Стоп" starts a fresh conversation. -/
theorem idle_reaper_removes_and_notifies_once_witness :
    lookup_timed (touch_activity 50 7
        [⟨7, ⟨"startstop", "line",
           ⟨7, "op", 55, none, none, none, none, none, none, none, none⟩⟩, 0⟩]) 7 =
      some ⟨7, ⟨"startstop", "line",
        ⟨7, "op", 55, none, none, none, none, none, none, none, none⟩⟩, 50⟩ ∧
    lookup_timed (reap_kept 1000
        [⟨7, ⟨"startstop", "line",
           ⟨7, "op", 55, none, none, none, none, none, none, none, none⟩⟩, 0⟩]) 7 = none ∧
    (reap_removed 1000
        [⟨7, ⟨"startstop", "line",
           ⟨7, "op", 55, none, none, none, none, none, none, none, none⟩⟩, 0⟩]).countP
      (fun x => x.uid = 7) = 1 ∧
    (reap_notices 1000
        [⟨7, ⟨"startstop", "line",
           ⟨7, "op", 55, none, none, none, none, none, none, none, none⟩⟩, 0⟩]).length =
      (reap_removed 1000
        [⟨7, ⟨"startstop", "line",
           ⟨7, "op", 55, none, none, none, none, none, none, none, none⟩⟩, 0⟩]).length ∧
    process_update sampleEnv (some ⟨"Старт/Стоп", 55, 7, "op"⟩)
        (timed_to_states (reap_kept 1000
          [⟨7, ⟨"startstop", "line",
             ⟨7, "op", 55, none, none, none, none, none, none, none, none⟩⟩, 0⟩])) =
      (setState (timed_to_states (reap_kept 1000
          [⟨7, ⟨"startstop", "line",
             ⟨7, "op", 55, none, none, none, none, none, none, none, none⟩⟩, 0⟩])) 7
         (some (start_startstop_flow 7 "op" 55)),
       [⟨55, "Номер линии (1-15):", .cancelKb⟩], []) :=
  idle_reaper_removes_and_notifies_once sampleEnv 55 "op" "Старт/Стоп" 7 1000 50
    [⟨7, ⟨"startstop", "line",
       ⟨7, "op", 55, none, none, none, none, none, none, none, none⟩⟩, 0⟩]
    ⟨7, ⟨"startstop", "line",
       ⟨7, "op", 55, none, none, none, none, none, none, none, none⟩⟩, 0⟩
    rfl (by decide) (by decide) (by decide)

end BotWebhook
